import Mathlib

/-!
Verification development for the browser-side interaction tracker in
`js/database.js`.  The tracker keeps process-wide mutable state (the current
learning session and a map from question prefix to the current attempt) and
issues select / insert / update calls against a remote tabular store.

The embedding below is a shallow one:

* the remote store is a `Store` value holding the three tables the code uses
  (`learning_sessions`, `question_attempts`, `input_tracking`) together with a
  sequential id counter and a schema flag saying whether the
  `anonymous_id` column exists;
* every supabase call goes through `dbCall`, which consumes one entry of a
  fault-injection queue: the call may succeed (ordinary relational
  semantics), return a `{ data, error }` pair with an error object, or throw
  a client-side exception.  Quantifying over the queue quantifies over store
  behaviours;
* each asynchronous JS function becomes a state-passing Lean function whose
  result type is `Except JsError (Option row) × TrackerState`; a `.error`
  value is an uncaught JS exception, and the `catchJs` combinator is the
  `try { ... } catch { return null }` wrapper the source puts around each
  body;
* every supabase request issued is appended to an operation log, so that
  "issues no write" and "issues exactly one retry" become statements about
  the log.

Time (`Date.now`, `toISOString`) and randomness are supplied by an `Env`
value passed to each call.
-/

/-- A supabase error object: the fields the source inspects. -/
structure DbError where
  code : String
  message : String
deriving Repr, DecidableEq

/-- A JS exception is modelled by its message. -/
abbrev JsError := String

/-- Behaviour injected for one store request: normal relational semantics,
a returned error object, or a thrown client-side exception. -/
inductive Fault where
  | ok : Fault
  | err : DbError → Fault
  | exn : JsError → Fault
deriving Repr, DecidableEq

/-- A row of the `learning_sessions` table. -/
structure SessionRow where
  id : Nat
  page_url : String
  user_agent : String
  anonymous_id : Option String
  session_end : Option Nat
deriving Repr, DecidableEq

/-- A row of the `question_attempts` table. -/
structure AttemptRow where
  id : Nat
  session_id : Nat
  question_file : String
  question_name : Option String
  question_pfx : String
  seed : Option Int
  attempt_number : Nat
  submitted_at : Option Nat
  score : Option Int
  max_score : Option Int
  is_correct : Option Bool
deriving Repr, DecidableEq

/-- A row of the `input_tracking` table. -/
structure InputRow where
  id : Nat
  attempt_id : Nat
  session_id : Nat
  input_name : String
  input_value : String
  input_type : String
  is_final_answer : Bool
  validation_result : Option String
  timestamp : Option Nat
deriving Repr, DecidableEq

/-- The remote tabular store: three tables, a fresh-id counter, and a schema
flag recording whether the `anonymous_id` column of `learning_sessions`
exists. -/
structure Store where
  hasAnonCol : Bool
  nextId : Nat
  learning_sessions : List SessionRow
  question_attempts : List AttemptRow
  input_tracking : List InputRow
deriving Repr, DecidableEq

/-- One store request, as recorded in the operation log.  For session inserts
the flag records whether the payload contained the `anonymous_id` field. -/
inductive StoreOp where
  | selectAttempts : Nat → StoreOp
  | selectInputs : Nat → String → StoreOp
  | insertSessions : Bool → StoreOp
  | insertAttempts : String → Nat → StoreOp
  | insertInputs : Nat → String → StoreOp
  | updateSessions : Nat → StoreOp
  | updateAttempts : Nat → StoreOp
  | updateInputs : Nat → StoreOp
deriving Repr, DecidableEq

/-- Classifies a logged store operation as a write (insert or update). -/
def isWriteOp : StoreOp → Bool
  | .selectAttempts _ => false
  | .selectInputs _ _ => false
  | _ => true

/-- The `{ data, error }` result object every supabase call resolves with. -/
structure DbRes (α : Type) where
  data : Option α
  error : Option DbError
deriving Repr

/-- Ambient page data: URL, user agent, current time, and the random suffix
`Math.random` would produce for a fresh anonymous id. -/
structure Env where
  pageUrl : String
  userAgent : String
  now : Nat
  randSuffix : String
deriving Repr, DecidableEq

/-- The whole mutable state the tracker interacts with: the remote store, the
pending fault queue, the `anonymousUserId` slot of `localStorage`, the two
process-wide globals `currentSession` and `currentAttempts`, whether the
supabase client is configured, and the log of issued store requests. -/
structure TrackerState where
  supabaseConfigured : Bool
  store : Store
  faults : List Fault
  localStorage : Option String
  currentSession : Option SessionRow
  currentAttempts : String → Option AttemptRow
  log : List StoreOp

/-- Pop the next injected fault; an empty queue means the store behaves
normally. -/
def popFault (s : TrackerState) : Fault × TrackerState :=
  match s.faults with
  | [] => (Fault.ok, s)
  | f :: fs => (f, { s with faults := fs })

/-- Issue one store request: log it, then either run the relational
semantics, resolve with an error object, or throw, according to the next
injected fault. -/
def dbCall {α : Type} (op : StoreOp) (run : Store → DbRes α × Store)
    (s : TrackerState) : Except JsError (DbRes α) × TrackerState :=
  let s1 := (popFault s).2
  let s2 := { s1 with log := s1.log ++ [op] }
  match (popFault s).1 with
  | Fault.exn m => (Except.error m, s2)
  | Fault.err e => (Except.ok ⟨none, some e⟩, s2)
  | Fault.ok =>
      (Except.ok (run s2.store).1, { s2 with store := (run s2.store).2 })

/-- The `try { ... } catch (e) { ...; return d }` wrapper: an uncaught
exception from the body is swallowed and replaced by the default value. -/
def catchJs {α : Type} (d : α) (r : Except JsError α × TrackerState) :
    Except JsError α × TrackerState :=
  match r with
  | (Except.error _, s) => (Except.ok d, s)
  | other => other

/-- JS object assignment `currentAttempts[k] = v`. -/
def setCA (m : String → Option AttemptRow) (k : String) (v : Option AttemptRow) :
    String → Option AttemptRow :=
  fun q => if q == k then v else m q

/-- Contiguous-subsequence test on character lists (structural, so it
computes definitionally). -/
def containsSeq (needle : List Char) : List Char → Bool
  | [] => needle.isEmpty
  | c :: cs => needle.isPrefixOf (c :: cs) || containsSeq needle cs

/-- The regex test `/anonymous_id/i.test(msg)`: case-insensitive substring
match. -/
def messageMentionsAnonymousId (msg : String) : Bool :=
  containsSeq "anonymous_id".data (msg.data.map Char.toLower)

/-- The fallback condition of `initializeDatabaseSession`:
`error.code === '42703' || /anonymous_id/i.test(error.message || '')`. -/
def anonColumnError (e : DbError) : Bool :=
  e.code == "42703" || messageMentionsAnonymousId e.message

/-- The token `'anon_' + Date.now() + '_' + Math.random().toString(36).substr(2, 9)`. -/
def freshAnonId (env : Env) : String :=
  "anon_" ++ toString env.now ++ "_" ++ env.randSuffix

/-- `generateAnonymousId`: return the stored token, or create, persist and
return a fresh one.  `localStorage.getItem` yields `null` when absent, and
the source tests the value for JS falsiness, so an absent slot and a stored
empty string behave alike. -/
def generateAnonymousId (env : Env) (s : TrackerState) : String × TrackerState :=
  let anonymousId := s.localStorage.getD ""
  if anonymousId == "" then
    let fresh := freshAnonId env
    (fresh, { s with localStorage := some fresh })
  else
    (anonymousId, s)

/-- The insert payload for `learning_sessions`; `anonymous_id = none` means
the field is omitted from the payload. -/
structure SessionInsert where
  page_url : String
  user_agent : String
  anonymous_id : Option String
deriving Repr, DecidableEq

/-- Relational semantics of `.from('learning_sessions').insert([p]).select().single()`:
fails with the Postgres undefined-column error when the payload names the
missing `anonymous_id` column, otherwise appends a fresh row and returns it. -/
def insertSessionRun (p : SessionInsert) (st : Store) : DbRes SessionRow × Store :=
  if p.anonymous_id.isSome && !st.hasAnonCol then
    (⟨none, some ⟨"42703", "column anonymous_id of relation learning_sessions does not exist"⟩⟩, st)
  else
    let row : SessionRow :=
      ⟨st.nextId, p.page_url, p.user_agent,
        if st.hasAnonCol then p.anonymous_id else none, none⟩
    (⟨some row, none⟩,
      { st with nextId := st.nextId + 1,
                learning_sessions := st.learning_sessions ++ [row] })

/-- Tail of `initializeDatabaseSession` after the fallback branch:
`if (error) return null; currentSession = data; return data` (reading
`currentSession.id` for the log would throw when `data` is null). -/
def finishInit (res : DbRes SessionRow) (s : TrackerState) :
    Except JsError (Option SessionRow) × TrackerState :=
  match res.error with
  | some _ => (Except.ok none, s)
  | none =>
      match res.data with
      | some row => (Except.ok (some row), { s with currentSession := some row })
      | none => (Except.error "TypeError: cannot read id of null",
                 { s with currentSession := none })

/-- Body of the `try` block of `initializeDatabaseSession`. -/
def initializeDatabaseSessionBody (env : Env) (s : TrackerState) :
    Except JsError (Option SessionRow) × TrackerState :=
  let anonymousId := (generateAnonymousId env s).1
  let s0 := (generateAnonymousId env s).2
  let payload : SessionInsert := ⟨env.pageUrl, env.userAgent, some anonymousId⟩
  let c1 := dbCall (StoreOp.insertSessions true) (insertSessionRun payload) s0
  match c1.1 with
  | Except.error m => (Except.error m, c1.2)
  | Except.ok res =>
      match res.error with
      | some e =>
          if anonColumnError e then
            let fallback : SessionInsert := ⟨env.pageUrl, env.userAgent, none⟩
            let c2 := dbCall (StoreOp.insertSessions false) (insertSessionRun fallback) c1.2
            match c2.1 with
            | Except.error m => (Except.error m, c2.2)
            | Except.ok res2 => finishInit res2 c2.2
          else finishInit res c1.2
      | none => finishInit res c1.2

/-- `initializeDatabaseSession`: guard on configuration, then the `try` body
with its `catch` returning null. -/
def initializeDatabaseSession (env : Env) (s : TrackerState) :
    Except JsError (Option SessionRow) × TrackerState :=
  if !s.supabaseConfigured then (Except.ok none, s)
  else catchJs none (initializeDatabaseSessionBody env s)

/-- Relational semantics of the `question_attempts` insert: append a fresh
row echoing the payload and return it. -/
def insertAttemptRun (sid : Nat) (qfile : String) (qn : Option String)
    (qp : String) (sd : Option Int) (num : Nat) (st : Store) :
    DbRes AttemptRow × Store :=
  let row : AttemptRow := ⟨st.nextId, sid, qfile, qn, qp, sd, num, none, none, none, none⟩
  (⟨some row, none⟩,
    { st with nextId := st.nextId + 1,
              question_attempts := st.question_attempts ++ [row] })

/-- The payload coercion `qname || null`: an empty (falsy) name becomes
null. -/
def coerceName (qname : String) : Option String :=
  if qname == "" then none else some qname

/-- The payload coercion `seed || null`: an absent or zero (falsy) seed
becomes null. -/
def coerceSeed (seed : Option Int) : Option Int :=
  match seed with
  | some v => if v == 0 then none else some v
  | none => none

/-- Body of the `try` block of `createQuestionAttempt`: read the cached
attempt for the prefix, compute the attempt number, insert, and cache the
returned row (`qname || null` and `seed || null` coerce falsy values to
null). -/
def createQuestionAttemptBody (qfile qname qpfx : String) (seed : Option Int)
    (s : TrackerState) : Except JsError (Option AttemptRow) × TrackerState :=
  let existingAttempt := s.currentAttempts qpfx
  let attemptNumber :=
    match existingAttempt with
    | some a => a.attempt_number + 1
    | none => 1
  match s.currentSession with
  | none => (Except.error "TypeError: cannot read id of null", s)
  | some sess =>
      let c1 := dbCall (StoreOp.insertAttempts qpfx attemptNumber)
        (insertAttemptRun sess.id qfile (coerceName qname) qpfx (coerceSeed seed) attemptNumber) s
      match c1.1 with
      | Except.error m => (Except.error m, c1.2)
      | Except.ok res =>
          match res.error with
          | some _ => (Except.ok none, c1.2)
          | none =>
              match res.data with
              | some row =>
                  (Except.ok (some row),
                   { c1.2 with currentAttempts := setCA c1.2.currentAttempts qpfx (some row) })
              | none =>
                  (Except.error "TypeError: cannot read id of null",
                   { c1.2 with currentAttempts := setCA c1.2.currentAttempts qpfx none })

/-- `createQuestionAttempt`: guard on configuration and session, then the
`try` body with its `catch` returning null. -/
def createQuestionAttempt (qfile qname qpfx : String) (seed : Option Int)
    (s : TrackerState) : Except JsError (Option AttemptRow) × TrackerState :=
  if !s.supabaseConfigured || s.currentSession.isNone then (Except.ok none, s)
  else catchJs none (createQuestionAttemptBody qfile qname qpfx seed s)

/-- Relational semantics of
`.from('question_attempts').update({...}).eq('id', rid).select().single()`:
every row matching the id filter is updated; `.single()` resolves with the
row when exactly one matched and with an error object otherwise. -/
def updateAttemptRun (rid : Nat) (t : Nat) (sc ms : Int) (ic : Bool)
    (st : Store) : DbRes AttemptRow × Store :=
  let updated := st.question_attempts.map (fun r =>
    if r.id == rid then
      { r with submitted_at := some t, score := some sc,
               max_score := some ms, is_correct := some ic }
    else r)
  let st1 := { st with question_attempts := updated }
  match updated.filter (fun r => r.id == rid) with
  | [r] => (⟨some r, none⟩, st1)
  | _ => (⟨none, some ⟨"PGRST116", "JSON object requested, multiple (or no) rows returned"⟩⟩, st1)

/-- Body of the `try` block of `updateQuestionAttempt`. -/
def updateQuestionAttemptBody (qpfx : String) (score maxScore : Int)
    (isCorrect : Bool) (env : Env) (s : TrackerState) :
    Except JsError (Option AttemptRow) × TrackerState :=
  match s.currentAttempts qpfx with
  | none => (Except.error "TypeError: cannot read id of null", s)
  | some attempt =>
      let c1 := dbCall (StoreOp.updateAttempts attempt.id)
        (updateAttemptRun attempt.id env.now score maxScore isCorrect) s
      match c1.1 with
      | Except.error m => (Except.error m, c1.2)
      | Except.ok res =>
          match res.error with
          | some _ => (Except.ok none, c1.2)
          | none =>
              match res.data with
              | some row =>
                  (Except.ok (some row),
                   { c1.2 with currentAttempts := setCA c1.2.currentAttempts qpfx (some row) })
              | none =>
                  (Except.error "TypeError: cannot read id of null",
                   { c1.2 with currentAttempts := setCA c1.2.currentAttempts qpfx none })

/-- `updateQuestionAttempt`: guard on configuration and a cached attempt for
the prefix, then the `try` body with its `catch` returning null. -/
def updateQuestionAttempt (qpfx : String) (score maxScore : Int)
    (isCorrect : Bool) (env : Env) (s : TrackerState) :
    Except JsError (Option AttemptRow) × TrackerState :=
  if !s.supabaseConfigured || (s.currentAttempts qpfx).isNone then (Except.ok none, s)
  else catchJs none (updateQuestionAttemptBody qpfx score maxScore isCorrect env s)

/-- The filter of the consolidated-input lookup:
`.eq('attempt_id', aid).eq('input_name', nm).eq('is_final_answer', true)`. -/
def finalMatch (aid : Nat) (nm : String) (r : InputRow) : Bool :=
  r.attempt_id == aid && r.input_name == nm && r.is_final_answer

/-- Relational semantics of the `question_attempts` id lookup with
`.maybeSingle()`: data is the row when exactly one matches, null otherwise
(zero rows give null data, several rows give an error the caller ignores). -/
def selectAttemptRun (rid : Nat) (st : Store) : DbRes AttemptRow × Store :=
  match st.question_attempts.filter (fun r => r.id == rid) with
  | [r] => (⟨some r, none⟩, st)
  | [] => (⟨none, none⟩, st)
  | _ => (⟨none, some ⟨"PGRST116", "JSON object requested, multiple (or no) rows returned"⟩⟩, st)

/-- Relational semantics of the final-answer lookup on `input_tracking` with
`.maybeSingle()`. -/
def selectFinalInputRun (aid : Nat) (nm : String) (st : Store) :
    DbRes InputRow × Store :=
  match st.input_tracking.filter (finalMatch aid nm) with
  | [r] => (⟨some r, none⟩, st)
  | [] => (⟨none, none⟩, st)
  | _ => (⟨none, some ⟨"PGRST116", "JSON object requested, multiple (or no) rows returned"⟩⟩, st)

/-- The row transformation of the consolidated-input update: set value,
validation result and timestamp on rows matching the id filter. -/
def applyInputUpdate (rid : Nat) (v : String) (vr : Option String) (t : Nat)
    (r : InputRow) : InputRow :=
  if r.id == rid then
    { r with input_value := v, validation_result := vr, timestamp := some t }
  else r

/-- Relational semantics of
`.from('input_tracking').update({...}).eq('id', rid).select().single()`. -/
def updateInputRun (rid : Nat) (v : String) (vr : Option String) (t : Nat)
    (st : Store) : DbRes InputRow × Store :=
  let updated := st.input_tracking.map (applyInputUpdate rid v vr t)
  let st1 := { st with input_tracking := updated }
  match updated.filter (fun r => r.id == rid) with
  | [r] => (⟨some r, none⟩, st1)
  | _ => (⟨none, some ⟨"PGRST116", "JSON object requested, multiple (or no) rows returned"⟩⟩, st1)

/-- Relational semantics of the `input_tracking` insert: append a fresh row
echoing the payload and return it. -/
def insertInputRun (aid sid : Nat) (nm v ty : String) (fin : Bool)
    (vr : Option String) (st : Store) : DbRes InputRow × Store :=
  let row : InputRow := ⟨st.nextId, aid, sid, nm, v, ty, fin, vr, none⟩
  (⟨some row, none⟩,
    { st with nextId := st.nextId + 1,
              input_tracking := st.input_tracking ++ [row] })

/-- `trackConsolidatedInput`: look up an existing final-answer record for
(attempt id, input name); update it in place when found, insert a fresh
final-answer record otherwise.  The insert branch reads
`currentSession.id`, which throws when no session is set. -/
def trackConsolidatedInput (attempt : AttemptRow) (nm v ty : String)
    (vr : Option String) (env : Env) (s : TrackerState) :
    Except JsError (Option InputRow) × TrackerState :=
  let c1 := dbCall (StoreOp.selectInputs attempt.id nm)
    (selectFinalInputRun attempt.id nm) s
  match c1.1 with
  | Except.error m => (Except.error m, c1.2)
  | Except.ok res =>
      match res.data with
      | some existing =>
          let c2 := dbCall (StoreOp.updateInputs existing.id)
            (updateInputRun existing.id v vr env.now) c1.2
          match c2.1 with
          | Except.error m => (Except.error m, c2.2)
          | Except.ok res2 =>
              match res2.error with
              | some _ => (Except.ok none, c2.2)
              | none => (Except.ok res2.data, c2.2)
      | none =>
          match c1.2.currentSession with
          | none => (Except.error "TypeError: cannot read id of null", c1.2)
          | some sess =>
              let c2 := dbCall (StoreOp.insertInputs attempt.id nm)
                (insertInputRun attempt.id sess.id nm v ty true vr) c1.2
              match c2.1 with
              | Except.error m => (Except.error m, c2.2)
              | Except.ok res2 =>
                  match res2.error with
                  | some _ => (Except.ok none, c2.2)
                  | none => (Except.ok res2.data, c2.2)

/-- `trackRegularInput`: the throttled insert path (unreachable from the
active dispatch): skip empty and sentinel values, otherwise insert a
non-final record. -/
def trackRegularInput (attempt : AttemptRow) (nm v ty : String)
    (vr : Option String) (s : TrackerState) :
    Except JsError (Option InputRow) × TrackerState :=
  if v == "" || v == "EMPTY" then (Except.ok none, s)
  else
    match s.currentSession with
    | none => (Except.error "TypeError: cannot read id of null", s)
    | some sess =>
        let c1 := dbCall (StoreOp.insertInputs attempt.id nm)
          (insertInputRun attempt.id sess.id nm v ty false vr) s
        match c1.1 with
        | Except.error m => (Except.error m, c1.2)
        | Except.ok res =>
            match res.error with
            | some _ => (Except.ok none, c1.2)
            | none => (Except.ok res.data, c1.2)

/-- Body of the `try` block of `trackInput`: re-verify the cached attempt id
still exists in the store (only the `data` field of the result is read),
then dispatch: final answers go to consolidation, everything else is a
no-op. -/
def trackInputBody (attempt : AttemptRow) (nm v ty : String) (fin : Bool)
    (vr : Option String) (env : Env) (s : TrackerState) :
    Except JsError (Option InputRow) × TrackerState :=
  let c1 := dbCall (StoreOp.selectAttempts attempt.id)
    (selectAttemptRun attempt.id) s
  match c1.1 with
  | Except.error m => (Except.error m, c1.2)
  | Except.ok res =>
      match res.data with
      | none => (Except.ok none, c1.2)
      | some _ =>
          if fin then trackConsolidatedInput attempt nm v ty vr env c1.2
          else (Except.ok none, c1.2)

/-- `trackInput`: guards on configuration, session and a cached attempt for
the prefix, then the `try` body with its `catch` returning null. -/
def trackInput (qpfx nm v ty : String) (fin : Bool) (vr : Option String)
    (env : Env) (s : TrackerState) :
    Except JsError (Option InputRow) × TrackerState :=
  if !s.supabaseConfigured || s.currentSession.isNone then (Except.ok none, s)
  else
    match s.currentAttempts qpfx with
    | none => (Except.ok none, s)
    | some attempt => catchJs none (trackInputBody attempt nm v ty fin vr env s)

/-- Relational semantics of the session-end update (no `.select()`, so the
result carries no data and a missing row is not an error). -/
def updateSessionRun (rid : Nat) (t : Nat) (st : Store) : DbRes Unit × Store :=
  (⟨none, none⟩,
    { st with learning_sessions := st.learning_sessions.map (fun r =>
        if r.id == rid then { r with session_end := some t } else r) })

/-- Body of the `try` block of `endDatabaseSession`. -/
def endDatabaseSessionBody (sess : SessionRow) (env : Env) (s : TrackerState) :
    Except JsError Unit × TrackerState :=
  let c1 := dbCall (StoreOp.updateSessions sess.id)
    (updateSessionRun sess.id env.now) s
  match c1.1 with
  | Except.error m => (Except.error m, c1.2)
  | Except.ok _ => (Except.ok (), c1.2)

/-- `endDatabaseSession`: guard on configuration and session, then the `try`
body with its `catch`. -/
def endDatabaseSession (env : Env) (s : TrackerState) :
    Except JsError Unit × TrackerState :=
  if !s.supabaseConfigured || s.currentSession.isNone then (Except.ok (), s)
  else
    match s.currentSession with
    | none => (Except.ok (), s)
    | some sess => catchJs () (endDatabaseSessionBody sess env s)

/-- The shape of a DOM input element as `getInputDetails` reads it: `type`
is empty when the property is falsy or absent. -/
structure InputElement where
  type : String
  tagName : String
  value : String
  checked : Bool
deriving Repr, DecidableEq

/-- The record `getInputDetails` returns. -/
structure InputDetails where
  type : String
  value : String
deriving Repr, DecidableEq

/-- `getInputDetails`: derive the input type (falling back to the lowercased
tag name) and the value, which for checkboxes and radios is empty unless
checked. -/
def getInputDetails (el : InputElement) : InputDetails :=
  let inputType := if el.type == "" then el.tagName.toLower else el.type
  let inputValue :=
    if inputType == "checkbox" || inputType == "radio" then
      (if el.checked then el.value else "")
    else el.value
  ⟨inputType, inputValue⟩

/-! ### Derived notions used by the claims -/

/-- The attempt-number the tracker would base the next attempt on: the
number of the cached attempt for the prefix, zero when none is cached. -/
def cacheNumber (s : TrackerState) (qpfx : String) : Nat :=
  match s.currentAttempts qpfx with
  | some a => a.attempt_number
  | none => 0

/-- The row `createQuestionAttempt` inserts from state `s`. -/
def newAttemptRow (s : TrackerState) (sess : SessionRow)
    (qfile qname qpfx : String) (seed : Option Int) : AttemptRow :=
  ⟨s.store.nextId, sess.id, qfile, coerceName qname, qpfx, coerceSeed seed,
    cacheNumber s qpfx + 1, none, none, none, none⟩

/-- The final-answer row `trackConsolidatedInput` inserts from state `s`. -/
def newInputRow (s : TrackerState) (sess : SessionRow) (attempt : AttemptRow)
    (nm v ty : String) (vr : Option String) : InputRow :=
  ⟨s.store.nextId, attempt.id, sess.id, nm, v, ty, true, vr, none⟩

/-- The attempt numbers of the stored `question_attempts` rows for one
question prefix, in insertion order. -/
def attemptNumbersFor (st : Store) (qpfx : String) : List Nat :=
  (st.question_attempts.filter (fun r => r.question_pfx == qpfx)).map
    (fun r => r.attempt_number)

/-- The list `[k+1, ..., k+n]`. -/
def countFrom (k : Nat) : Nat → List Nat
  | 0 => []
  | n + 1 => (k + 1) :: countFrom (k + 1) n

/-- Iterate `createQuestionAttempt` with fixed arguments, collecting the
returned records. -/
def runCreates (qfile qname qpfx : String) (seed : Option Int) :
    Nat → TrackerState → List (Option AttemptRow) × TrackerState
  | 0, s => ([], s)
  | n + 1, s =>
      let c := createQuestionAttempt qfile qname qpfx seed s
      let rest := runCreates qfile qname qpfx seed n c.2
      ((match c.1 with | Except.ok w => w | Except.error _ => none) :: rest.1, rest.2)

/-! ### Concrete fixtures for witnesses -/

/-- A concrete page environment. -/
def env0 : Env := ⟨"https://example.org/q", "agent", 1000, "r4nd0m"⟩

/-- A concrete learning session row. -/
def sess0 : SessionRow := ⟨1, "https://example.org/q", "agent", some "anon_7_x", none⟩

/-- A concrete question attempt row. -/
def attempt0 : AttemptRow :=
  ⟨2, 1, "file.xml", none, "q1_", none, 1, none, none, none, none⟩

/-- A concrete store holding the session and attempt above. -/
def store0 : Store := ⟨true, 3, [sess0], [attempt0], []⟩

/-- A concrete tracker state: configured, session established, the attempt
above cached for prefix `q1_`, no injected faults. -/
def state0 : TrackerState :=
  ⟨true, store0, [], some "anon_7_x", some sess0,
    fun q => if q == "q1_" then some attempt0 else none, []⟩

/-! ### C4 and C6: missing-precondition no-ops -/

/-- C4: for every prefix with no cached attempt, `trackInput` returns an
empty result and leaves the whole state (store, caches, operation log)
untouched — in particular it issues no store write. -/
theorem trackInput_without_attempt_is_noop (qpfx nm v ty : String) (fin : Bool)
    (vr : Option String) (env : Env) (s : TrackerState)
    (h : s.currentAttempts qpfx = none) :
    trackInput qpfx nm v ty fin vr env s = (Except.ok none, s) := by
  unfold trackInput
  split
  · rfl
  · rw [h]

/-- Witness for C4 at a concrete state: prefix `zz` has no cached attempt,
and the call returns an empty result leaving the state unchanged. -/
theorem trackInput_without_attempt_is_noop_witness :
    state0.currentAttempts "zz" = none ∧
    trackInput "zz" "ans" "7" "text" true none env0 state0 = (Except.ok none, state0) :=
  ⟨rfl, trackInput_without_attempt_is_noop "zz" "ans" "7" "text" true none env0 state0 rfl⟩

/-- C6: for every prefix with no cached attempt, `updateQuestionAttempt`
returns an empty result and leaves the whole state untouched — so no store
operation is issued and `currentAttempts` is unchanged at every prefix. -/
theorem updateAttempt_without_attempt_is_noop (qpfx : String)
    (score maxScore : Int) (isCorrect : Bool) (env : Env) (s : TrackerState)
    (h : s.currentAttempts qpfx = none) :
    updateQuestionAttempt qpfx score maxScore isCorrect env s = (Except.ok none, s) := by
  unfold updateQuestionAttempt
  rw [h]
  simp

/-- Witness for C6 at a concrete state: prefix `zz` has no cached attempt,
and the update returns an empty result leaving the state unchanged. -/
theorem updateAttempt_without_attempt_is_noop_witness :
    state0.currentAttempts "zz" = none ∧
    updateQuestionAttempt "zz" 3 5 false env0 state0 = (Except.ok none, state0) :=
  ⟨rfl, updateAttempt_without_attempt_is_noop "zz" 3 5 false env0 state0 rfl⟩

/-! ### C10: stability of the anonymous identity -/

/-- A freshly generated token starts with `anon_`, so it is never the empty
string. -/
theorem freshAnonId_ne_empty (env : Env) : freshAnonId env ≠ "" := by
  intro h
  have hlen := congrArg String.length h
  rw [freshAnonId] at hlen
  simp only [String.length_append] at hlen
  have h5 : "anon_".length = 5 := rfl
  have h0 : "".length = 0 := rfl
  omega

/-- C10: the identity retrieval is stable: whatever the client-storage
state, the first call persists the token it returns, and a second call
returns the very same token. -/
theorem generateAnonymousId_stable (env1 env2 : Env) (s : TrackerState) :
    (generateAnonymousId env2 (generateAnonymousId env1 s).2).1
      = (generateAnonymousId env1 s).1 ∧
    (generateAnonymousId env1 s).2.localStorage = some (generateAnonymousId env1 s).1 := by
  unfold generateAnonymousId
  cases hls : s.localStorage with
  | none =>
      simp [freshAnonId_ne_empty env1]
  | some t =>
      by_cases ht : t = ""
      · subst ht
        simp [hls, freshAnonId_ne_empty env1]
      · simp [hls, ht]

/-! ### C7: the catch wrappers swallow every exception -/

/-- Whatever the wrapped body did, the `catch` wrapper resolves with a plain
value. -/
theorem catchJs_fst_isOk {α : Type} (d : α) (r : Except JsError α × TrackerState) :
    ∃ v, (catchJs d r).1 = Except.ok v := by
  rcases r with ⟨e, s⟩
  cases e with
  | error m => exact ⟨d, rfl⟩
  | ok v => exact ⟨v, rfl⟩

/-- `initializeDatabaseSession` never lets an exception escape. -/
theorem initializeDatabaseSession_no_throw (env : Env) (s : TrackerState) :
    ∃ v, (initializeDatabaseSession env s).1 = Except.ok v := by
  unfold initializeDatabaseSession
  split
  · exact ⟨none, rfl⟩
  · exact catchJs_fst_isOk none _

/-- `createQuestionAttempt` never lets an exception escape. -/
theorem createQuestionAttempt_no_throw (qfile qname qpfx : String)
    (seed : Option Int) (s : TrackerState) :
    ∃ v, (createQuestionAttempt qfile qname qpfx seed s).1 = Except.ok v := by
  unfold createQuestionAttempt
  split
  · exact ⟨none, rfl⟩
  · exact catchJs_fst_isOk none _

/-- `updateQuestionAttempt` never lets an exception escape. -/
theorem updateQuestionAttempt_no_throw (qpfx : String) (score maxScore : Int)
    (isCorrect : Bool) (env : Env) (s : TrackerState) :
    ∃ v, (updateQuestionAttempt qpfx score maxScore isCorrect env s).1 = Except.ok v := by
  unfold updateQuestionAttempt
  split
  · exact ⟨none, rfl⟩
  · exact catchJs_fst_isOk none _

/-- `trackInput` never lets an exception escape. -/
theorem trackInput_no_throw (qpfx nm v ty : String) (fin : Bool)
    (vr : Option String) (env : Env) (s : TrackerState) :
    ∃ w, (trackInput qpfx nm v ty fin vr env s).1 = Except.ok w := by
  unfold trackInput
  split
  · exact ⟨none, rfl⟩
  · split
    · exact ⟨none, rfl⟩
    · exact catchJs_fst_isOk none _

/-- `endDatabaseSession` never lets an exception escape. -/
theorem endDatabaseSession_no_throw (env : Env) (s : TrackerState) :
    ∃ v, (endDatabaseSession env s).1 = Except.ok v := by
  unfold endDatabaseSession
  split
  · exact ⟨(), rfl⟩
  · split
    · exact ⟨(), rfl⟩
    · exact catchJs_fst_isOk () _

/-- C7: for every state (hence every injected store behaviour, including
store calls that throw) and all arguments, none of the public operations
propagates an exception: each resolves with a plain value (a record or an
empty result).  `getInputDetails` is a total pure function by its type, so
it cannot throw either. -/
theorem public_operations_never_throw (env : Env) (s : TrackerState)
    (qfile qname qpfx nm v ty : String) (seed : Option Int)
    (score maxScore : Int) (isCorrect fin : Bool) (vr : Option String) :
    (∃ r, (initializeDatabaseSession env s).1 = Except.ok r) ∧
    (∃ r, (createQuestionAttempt qfile qname qpfx seed s).1 = Except.ok r) ∧
    (∃ r, (updateQuestionAttempt qpfx score maxScore isCorrect env s).1 = Except.ok r) ∧
    (∃ r, (trackInput qpfx nm v ty fin vr env s).1 = Except.ok r) ∧
    (∃ r, (endDatabaseSession env s).1 = Except.ok r) :=
  ⟨initializeDatabaseSession_no_throw env s,
   createQuestionAttempt_no_throw qfile qname qpfx seed s,
   updateQuestionAttempt_no_throw qpfx score maxScore isCorrect env s,
   trackInput_no_throw qpfx nm v ty fin vr env s,
   endDatabaseSession_no_throw env s⟩

/-! ### Frame lemmas about single store calls -/

/-- A store call appends exactly its own entry to the operation log. -/
theorem dbCall_log {α : Type} (op : StoreOp) (run : Store → DbRes α × Store)
    (s : TrackerState) : (dbCall op run s).2.log = s.log ++ [op] := by
  unfold dbCall popFault
  cases hf : s.faults with
  | nil => rfl
  | cons f fs => cases f <;> rfl

/-- A store call leaves `currentSession` alone. -/
theorem dbCall_currentSession {α : Type} (op : StoreOp)
    (run : Store → DbRes α × Store) (s : TrackerState) :
    (dbCall op run s).2.currentSession = s.currentSession := by
  unfold dbCall popFault
  cases hf : s.faults with
  | nil => rfl
  | cons f fs => cases f <;> rfl

/-- A store call leaves `currentAttempts` alone. -/
theorem dbCall_currentAttempts {α : Type} (op : StoreOp)
    (run : Store → DbRes α × Store) (s : TrackerState) :
    (dbCall op run s).2.currentAttempts = s.currentAttempts := by
  unfold dbCall popFault
  cases hf : s.faults with
  | nil => rfl
  | cons f fs => cases f <;> rfl

/-- A store call leaves the configuration flag alone. -/
theorem dbCall_supabaseConfigured {α : Type} (op : StoreOp)
    (run : Store → DbRes α × Store) (s : TrackerState) :
    (dbCall op run s).2.supabaseConfigured = s.supabaseConfigured := by
  unfold dbCall popFault
  cases hf : s.faults with
  | nil => rfl
  | cons f fs => cases f <;> rfl

/-- A store call whose relational semantics does not touch the store (a
select) leaves the store alone, whatever fault is injected. -/
theorem dbCall_store_of_readonly {α : Type} (op : StoreOp)
    (run : Store → DbRes α × Store) (s : TrackerState)
    (hrun : ∀ st, (run st).2 = st) :
    (dbCall op run s).2.store = s.store := by
  unfold dbCall popFault
  cases hf : s.faults with
  | nil => simp [hrun]
  | cons f fs => cases f <;> simp [hrun]

/-- The attempt-id lookup does not modify the store. -/
theorem selectAttemptRun_readonly (rid : Nat) (st : Store) :
    (selectAttemptRun rid st).2 = st := by
  unfold selectAttemptRun
  split <;> rfl

/-- The final-answer lookup does not modify the store. -/
theorem selectFinalInputRun_readonly (aid : Nat) (nm : String) (st : Store) :
    (selectFinalInputRun aid nm st).2 = st := by
  unfold selectFinalInputRun
  split <;> rfl

/-! ### C9: non-final tracking is read-only -/

/-- With `isFinalAnswer` false the tracked body only ever performs the
attempt-existence select: it resolves to an empty result and keeps the state
the select left. -/
theorem trackInputBody_nonfinal (attempt : AttemptRow) (nm v ty : String)
    (vr : Option String) (env : Env) (s : TrackerState) :
    catchJs none (trackInputBody attempt nm v ty false vr env s)
      = (Except.ok none,
         (dbCall (StoreOp.selectAttempts attempt.id) (selectAttemptRun attempt.id) s).2) := by
  cases hc : (dbCall (StoreOp.selectAttempts attempt.id) (selectAttemptRun attempt.id) s).1 with
  | error m => simp [trackInputBody, hc, catchJs]
  | ok res =>
      cases hd : res.data with
      | none => simp [trackInputBody, hc, hd, catchJs]
      | some arow => simp [trackInputBody, hc, hd, catchJs]

/-- Writes in a log are unaffected by appending a select. -/
theorem filter_write_append_select (l : List StoreOp) (rid : Nat) :
    (l ++ [StoreOp.selectAttempts rid]).filter isWriteOp = l.filter isWriteOp := by
  simp [List.filter_append, isWriteOp]

/-- C9: for every state, every store behaviour and all arguments, a
`trackInput` call with `isFinalAnswer = false` returns an empty result,
leaves the store untouched (no insert and no update on any table), and adds
no write operation to the log: only final-answer calls reach the
consolidation procedure. -/
theorem trackInput_nonfinal_is_readonly (qpfx nm v ty : String)
    (vr : Option String) (env : Env) (s : TrackerState) :
    (trackInput qpfx nm v ty false vr env s).1 = Except.ok none ∧
    (trackInput qpfx nm v ty false vr env s).2.store = s.store ∧
    (trackInput qpfx nm v ty false vr env s).2.log.filter isWriteOp
      = s.log.filter isWriteOp := by
  unfold trackInput
  split
  · exact ⟨rfl, rfl, rfl⟩
  · cases hca : s.currentAttempts qpfx with
    | none => exact ⟨rfl, rfl, rfl⟩
    | some attempt =>
        simp only [trackInputBody_nonfinal attempt nm v ty vr env s]
        refine ⟨trivial, ?_, ?_⟩
        · exact dbCall_store_of_readonly _ _ s (selectAttemptRun_readonly attempt.id)
        · rw [dbCall_log]
          exact filter_write_append_select s.log attempt.id

/-! ### C5: the attempt-existence re-verification -/

/-- With no injected fault a store call runs its relational semantics on the
current store and logs itself. -/
theorem dbCall_nofault {α : Type} (op : StoreOp) (run : Store → DbRes α × Store)
    (s : TrackerState) (h : s.faults = []) :
    dbCall op run s = (Except.ok (run s.store).1,
      { s with log := s.log ++ [op], store := (run s.store).2 }) := by
  obtain ⟨cfg, st, fl, ls, cs, ca, lg⟩ := s
  have h1 : fl = [] := h
  subst h1
  rfl

/-- C5: when the preconditions of `trackInput` hold but the cached attempt
id matches no stored row, the call issues exactly the one select on
`question_attempts` and returns an empty result: the final state differs
from the initial one only by that logged read — no write, no store change,
no cache change. -/
theorem trackInput_stale_attempt_is_readonly (qpfx nm v ty : String)
    (fin : Bool) (vr : Option String) (env : Env) (s : TrackerState)
    (attempt : AttemptRow)
    (hconf : s.supabaseConfigured = true)
    (hsess : s.currentSession.isNone = false)
    (hatt : s.currentAttempts qpfx = some attempt)
    (hfaults : s.faults = [])
    (hmiss : s.store.question_attempts.filter (fun r => r.id == attempt.id) = []) :
    trackInput qpfx nm v ty fin vr env s =
      (Except.ok none, { s with log := s.log ++ [StoreOp.selectAttempts attempt.id] }) := by
  have hrun : selectAttemptRun attempt.id s.store = (⟨none, none⟩, s.store) := by
    unfold selectAttemptRun
    rw [hmiss]
  unfold trackInput
  rw [hatt]
  simp only [hconf, hsess, Bool.not_true, Bool.or_false, Bool.false_eq_true,
    if_false, trackInputBody, dbCall_nofault _ _ s hfaults, hrun, catchJs]

/-- A state whose cached attempt no longer exists in the store. -/
def state5 : TrackerState :=
  { state0 with store := { store0 with question_attempts := [] } }

/-- Witness for C5 at a concrete state: the cached attempt id 2 matches no
stored row, so the call logs the one select and returns empty. -/
theorem trackInput_stale_attempt_is_readonly_witness :
    trackInput "q1_" "ans" "7" "text" true none env0 state5 =
      (Except.ok none, { state5 with log := state5.log ++ [StoreOp.selectAttempts attempt0.id] }) :=
  trackInput_stale_attempt_is_readonly "q1_" "ans" "7" "text" true none env0
    state5 attempt0 rfl rfl rfl rfl rfl

/-! ### C3: the missing-column fallback retry -/

/-- C3: if the first session insert fails with a store error that matches
the missing-column condition (code 42703 or an `anonymous_id` message),
`initializeDatabaseSession` issues exactly one retry insert whose payload
omits the anonymous-identity field (the log records the two inserts, the
second without the field); the retry succeeding, the call returns the
created session, which carries no anonymous identity, and caches it. -/
theorem initializeSession_fallback_retry (env : Env) (s : TrackerState)
    (e : DbError)
    (hconf : s.supabaseConfigured = true)
    (hfaults : s.faults = [Fault.err e])
    (hcond : anonColumnError e = true) :
    ∃ row : SessionRow,
      (initializeDatabaseSession env s).1 = Except.ok (some row) ∧
      (initializeDatabaseSession env s).2.currentSession = some row ∧
      row.anonymous_id = none ∧
      (initializeDatabaseSession env s).2.log
        = s.log ++ [StoreOp.insertSessions true, StoreOp.insertSessions false] := by
  obtain ⟨cfg, st, fl, ls, cs, ca, lg⟩ := s
  have h1 : cfg = true := hconf
  have h2 : fl = [Fault.err e] := hfaults
  subst h1
  subst h2
  unfold initializeDatabaseSession initializeDatabaseSessionBody
    generateAnonymousId dbCall popFault insertSessionRun finishInit catchJs
  cases ls with
  | none => simp [hcond, ite_self]
  | some t =>
      by_cases ht : t = ""
      · subst ht
        simp [hcond, ite_self]
      · simp [ht, hcond, ite_self]

/-- The Postgres undefined-column error used to simulate the missing
`anonymous_id` column. -/
def err42703 : DbError := ⟨"42703", "undefined column"⟩

/-- A state whose next store request fails with the missing-column error. -/
def state3 : TrackerState := { state0 with faults := [Fault.err err42703] }

/-- Witness for C3 at a concrete state: the simulated 42703 failure on the
first insert leads to one fallback insert without the identity field, a
non-empty returned session that is cached, and exactly those two logged
inserts. -/
theorem initializeSession_fallback_retry_witness :
    ∃ row : SessionRow,
      (initializeDatabaseSession env0 state3).1 = Except.ok (some row) ∧
      (initializeDatabaseSession env0 state3).2.currentSession = some row ∧
      row.anonymous_id = none ∧
      (initializeDatabaseSession env0 state3).2.log
        = state3.log ++ [StoreOp.insertSessions true, StoreOp.insertSessions false] :=
  initializeSession_fallback_retry env0 state3 err42703 rfl rfl rfl

/-! ### C8: what a failed initialization does to `currentSession` -/

/-- The outcome of a session-producing operation either leaves
`currentSession` at the given value or returns a created row and caches
exactly that row. -/
def KeepsSession (x : Option SessionRow)
    (E : Except JsError (Option SessionRow) × TrackerState) : Prop :=
  E.2.currentSession = x ∨
    ∃ row, E.1 = Except.ok (some row) ∧ E.2.currentSession = some row

/-- `generateAnonymousId` does not touch `currentSession`. -/
theorem generateAnonymousId_currentSession (env : Env) (s : TrackerState) :
    (generateAnonymousId env s).2.currentSession = s.currentSession := by
  simp only [generateAnonymousId]
  split <;> rfl

/-- The catch wrapper preserves the `KeepsSession` outcome. -/
theorem keeps_catchJs (x : Option SessionRow)
    (E : Except JsError (Option SessionRow) × TrackerState)
    (h : KeepsSession x E) : KeepsSession x (catchJs none E) := by
  rcases E with ⟨e, st⟩
  cases e with
  | error m =>
      rcases h with h | ⟨row, hr, _⟩
      · exact Or.inl h
      · exact absurd hr (by simp)
  | ok v => exact h

/-- `finishInit` keeps the session when the result is sane: an errorless
result carries data. -/
theorem keeps_finishInit (x : Option SessionRow) (res : DbRes SessionRow)
    (sB : TrackerState) (hshape : res.error = none → res.data ≠ none)
    (hcs : sB.currentSession = x) : KeepsSession x (finishInit res sB) := by
  unfold finishInit
  cases hre : res.error with
  | some e => exact Or.inl hcs
  | none =>
      cases hrd : res.data with
      | some row => exact Or.inr ⟨row, rfl, rfl⟩
      | none => exact absurd hrd (hshape hre)

/-- Any `Except.ok` result a session insert resolves with carries data
whenever it carries no error. -/
theorem dbCall_insertSession_shape (op : StoreOp) (p : SessionInsert)
    (sB : TrackerState) (res : DbRes SessionRow)
    (h : (dbCall op (insertSessionRun p) sB).1 = Except.ok res) :
    res.error = none → res.data ≠ none := by
  unfold dbCall popFault at h
  cases hf : sB.faults with
  | nil =>
      rw [hf] at h
      simp only [Except.ok.injEq] at h
      subst h
      unfold insertSessionRun
      split
      · intro he
        simp at he
      · intro _
        simp
  | cons f fs =>
      rw [hf] at h
      cases f with
      | ok =>
          simp only [Except.ok.injEq] at h
          subst h
          unfold insertSessionRun
          split
          · intro he
            simp at he
          · intro _
            simp
      | err e =>
          simp only [Except.ok.injEq] at h
          subst h
          intro he
          simp at he
      | exn m => simp at h

/-- Pair form of `dbCall_insertSession_shape`. -/
theorem dbCall_insertSession_shape2 (op : StoreOp) (p : SessionInsert)
    (sB : TrackerState) (res : DbRes SessionRow) (s1 : TrackerState)
    (h : dbCall op (insertSessionRun p) sB = (Except.ok res, s1)) :
    res.error = none → res.data ≠ none :=
  dbCall_insertSession_shape op p sB res (by rw [h])

/-- The body of `initializeDatabaseSession` either leaves `currentSession`
as it was or returns the created row and caches exactly it. -/
theorem initBody_keepsSession (env : Env) (s : TrackerState) :
    KeepsSession s.currentSession (initializeDatabaseSessionBody env s) := by
  simp only [initializeDatabaseSessionBody]
  have hcsA : (generateAnonymousId env s).2.currentSession = s.currentSession :=
    generateAnonymousId_currentSession env s
  generalize hc1 : dbCall (StoreOp.insertSessions true)
      (insertSessionRun ⟨env.pageUrl, env.userAgent, some (generateAnonymousId env s).1⟩)
      (generateAnonymousId env s).2 = c1
  have h1cs : c1.2.currentSession = s.currentSession := by
    rw [← hc1, dbCall_currentSession, hcsA]
  obtain ⟨r1, s1⟩ := c1
  cases r1 with
  | error m => exact Or.inl h1cs
  | ok res =>
      simp only []
      cases hre : res.error with
      | none => exact keeps_finishInit _ res _ (dbCall_insertSession_shape2 _ _ _ res s1 hc1) h1cs
      | some e =>
          simp only []
          split
          · generalize hc2 : dbCall (StoreOp.insertSessions false)
                (insertSessionRun ⟨env.pageUrl, env.userAgent, none⟩) s1 = c2
            have h2cs : c2.2.currentSession = s.currentSession := by
              rw [← hc2, dbCall_currentSession]
              exact h1cs
            obtain ⟨r2, s2⟩ := c2
            cases r2 with
            | error m => exact Or.inl h2cs
            | ok res2 =>
                exact keeps_finishInit _ res2 _
                  (dbCall_insertSession_shape2 _ _ _ res2 s2 hc2) h2cs
          · exact keeps_finishInit _ res _
              (fun hne => by rw [hre] at hne; exact Option.noConfusion hne) h1cs

/-- C8 (amended): whenever `initializeDatabaseSession` fails it returns an
empty result (C7) and leaves `currentSession` exactly as it was — it does
not reset it; only a successful call changes `currentSession`, and then to
the created row.  In particular a failed first initialization leaves it
unset. -/
theorem initializeSession_failure_keeps_session (env : Env) (s : TrackerState) :
    (initializeDatabaseSession env s).2.currentSession = s.currentSession ∨
    ∃ row, (initializeDatabaseSession env s).1 = Except.ok (some row) ∧
           (initializeDatabaseSession env s).2.currentSession = some row := by
  have h : KeepsSession s.currentSession (initializeDatabaseSession env s) := by
    unfold initializeDatabaseSession
    split
    · exact Or.inl rfl
    · exact keeps_catchJs _ _ (initBody_keepsSession env s)
  exact h

/-- A store failure that does not match the missing-column condition. -/
def errBoom : DbError := ⟨"57014", "statement timeout"⟩

/-- A state with a session already cached whose next request fails. -/
def state8 : TrackerState := { state0 with faults := [Fault.err errBoom] }

/-- Counterexample to C8 as stated: from a state that already holds a
session, a failing `initializeDatabaseSession` returns an empty result yet
`currentSession` is not unset afterwards — it still holds the old session. -/
theorem initializeSession_failure_counterexample :
    (initializeDatabaseSession env0 state8).1 = Except.ok none ∧
    (initializeDatabaseSession env0 state8).2.currentSession ≠ none := by
  refine ⟨rfl, ?_⟩
  have h : (initializeDatabaseSession env0 state8).2.currentSession = some sess0 := rfl
  rw [h]
  simp

/-! ### C2: attempt numbering -/

/-- The state after one successful `createQuestionAttempt`: row appended,
id counter advanced, cache entry overwritten, insert logged. -/
def createSucc (s : TrackerState) (sess : SessionRow)
    (qfile qname qpfx : String) (seed : Option Int) : TrackerState :=
  { s with
      store := { s.store with
        nextId := s.store.nextId + 1,
        question_attempts := s.store.question_attempts
          ++ [newAttemptRow s sess qfile qname qpfx seed] },
      currentAttempts := setCA s.currentAttempts qpfx
        (some (newAttemptRow s sess qfile qname qpfx seed)),
      log := s.log ++ [StoreOp.insertAttempts qpfx (cacheNumber s qpfx + 1)] }

/-- One successful `createQuestionAttempt` under its preconditions with a
normally behaving store: it inserts a row numbered one above the cached
attempt number, caches it, and logs the one insert. -/
theorem createQuestionAttempt_step (qfile qname qpfx : String)
    (seed : Option Int) (s : TrackerState) (sess : SessionRow)
    (hconf : s.supabaseConfigured = true)
    (hsess : s.currentSession = some sess)
    (hfaults : s.faults = []) :
    createQuestionAttempt qfile qname qpfx seed s =
      (Except.ok (some (newAttemptRow s sess qfile qname qpfx seed)),
       createSucc s sess qfile qname qpfx seed) := by
  unfold createQuestionAttempt
  rw [hsess]
  cases hca : s.currentAttempts qpfx with
  | none =>
      simp only [hconf, createQuestionAttemptBody, hsess, hca,
        dbCall_nofault _ _ s hfaults, insertAttemptRun, newAttemptRow,
        cacheNumber, createSucc, catchJs]
      simp
  | some a =>
      simp only [hconf, createQuestionAttemptBody, hsess, hca,
        dbCall_nofault _ _ s hfaults, insertAttemptRun, newAttemptRow,
        cacheNumber, createSucc, catchJs]
      simp

/-- The cached number for the prefix advances by one across a successful
call. -/
theorem cacheNumber_createSucc (s : TrackerState) (sess : SessionRow)
    (qfile qname qpfx : String) (seed : Option Int) :
    cacheNumber (createSucc s sess qfile qname qpfx seed) qpfx
      = cacheNumber s qpfx + 1 := by
  simp [cacheNumber, createSucc, setCA, newAttemptRow]

/-- The stored attempt numbers for the prefix gain exactly the new number. -/
theorem attemptNumbersFor_createSucc (s : TrackerState) (sess : SessionRow)
    (qfile qname qpfx : String) (seed : Option Int) :
    attemptNumbersFor (createSucc s sess qfile qname qpfx seed).store qpfx
      = attemptNumbersFor s.store qpfx ++ [cacheNumber s qpfx + 1] := by
  simp [attemptNumbersFor, createSucc, newAttemptRow, List.filter_append]

/-- The invariant behind the attempt counter: starting from any state whose
cached number for the prefix is `cacheNumber s qpfx`, `n` successive calls
return records numbered `cacheNumber+1, ..., cacheNumber+n` and append
exactly those numbers to the stored rows for the prefix. -/
theorem runCreates_numbers (qfile qname qpfx : String) (seed : Option Int)
    (sess : SessionRow) :
    ∀ (n : Nat) (s : TrackerState),
      s.supabaseConfigured = true → s.currentSession = some sess →
      s.faults = [] →
      ((runCreates qfile qname qpfx seed n s).1.map
          (fun r => r.map (fun a => a.attempt_number))
         = (countFrom (cacheNumber s qpfx) n).map some) ∧
      attemptNumbersFor (runCreates qfile qname qpfx seed n s).2.store qpfx
         = attemptNumbersFor s.store qpfx ++ countFrom (cacheNumber s qpfx) n
  | 0, s, hconf, hsess, hfaults => by
      simp [runCreates, countFrom]
  | n + 1, s, hconf, hsess, hfaults => by
      have hstep := createQuestionAttempt_step qfile qname qpfx seed s sess
        hconf hsess hfaults
      have hih := runCreates_numbers qfile qname qpfx seed sess n
        (createSucc s sess qfile qname qpfx seed) hconf hsess hfaults
      rw [cacheNumber_createSucc, attemptNumbersFor_createSucc] at hih
      simp only [runCreates, hstep]
      refine ⟨?_, ?_⟩
      · simp only [List.map_cons, countFrom]
        rw [hih.1]
        rfl
      · rw [hih.2, List.append_assoc]
        rfl

/-- C2: for any sequence of `createQuestionAttempt` calls with the same
prefix, starting from a state with no cached attempt for it (and any store
content, in particular any value of the store id counter), the returned
records carry attempt numbers 1, 2, ..., n — strictly increasing by one per
call, starting at 1 — and exactly those numbers are appended to the stored
rows for the prefix.  The number is computed from the in-memory cache alone:
it is independent of the store-assigned row identifiers, which the statement
quantifies over through the arbitrary initial `nextId`. -/
theorem createAttempt_numbers_sequential (qfile qname qpfx : String)
    (seed : Option Int) (sess : SessionRow) (n : Nat) (s : TrackerState)
    (hconf : s.supabaseConfigured = true)
    (hsess : s.currentSession = some sess)
    (hfaults : s.faults = [])
    (hnone : s.currentAttempts qpfx = none) :
    ((runCreates qfile qname qpfx seed n s).1.map
        (fun r => r.map (fun a => a.attempt_number))
       = (countFrom 0 n).map some) ∧
    attemptNumbersFor (runCreates qfile qname qpfx seed n s).2.store qpfx
       = attemptNumbersFor s.store qpfx ++ countFrom 0 n := by
  have h := runCreates_numbers qfile qname qpfx seed sess n s hconf hsess hfaults
  have h0 : cacheNumber s qpfx = 0 := by simp [cacheNumber, hnone]
  rw [h0] at h
  exact h

/-- A configured state with a session but no cached attempts. -/
def stateC2 : TrackerState := { state0 with currentAttempts := fun _ => none }

/-- Witness for C2 at a concrete state, three calls deep: the records come
back numbered 1, 2, 3 and the store gains exactly those rows. -/
theorem createAttempt_numbers_sequential_witness :
    ((runCreates "file.xml" "" "q9_" none 3 stateC2).1.map
        (fun r => r.map (fun a => a.attempt_number))
       = (countFrom 0 3).map some) ∧
    attemptNumbersFor (runCreates "file.xml" "" "q9_" none 3 stateC2).2.store "q9_"
       = attemptNumbersFor stateC2.store "q9_" ++ countFrom 0 3 :=
  createAttempt_numbers_sequential "file.xml" "" "q9_" none sess0 3 stateC2
    rfl rfl rfl rfl

/-! ### C1: the final-answer upsert keeps one record per (attempt, input) -/

/-- The consolidated-input update leaves membership in the final-answer
filter unchanged: it only touches value, validation result and timestamp. -/
theorem finalMatch_applyInputUpdate (aid : Nat) (nm : String) (rid : Nat)
    (v : String) (vr : Option String) (t : Nat) (r : InputRow) :
    finalMatch aid nm (applyInputUpdate rid v vr t r) = finalMatch aid nm r := by
  unfold applyInputUpdate finalMatch
  split <;> rfl

/-- The update keeps row ids. -/
theorem id_applyInputUpdate (rid : Nat) (v : String) (vr : Option String)
    (t : Nat) (r : InputRow) : (applyInputUpdate rid v vr t r).id = r.id := by
  unfold applyInputUpdate
  split <;> rfl

/-- The update keeps the final-answer flag. -/
theorem isFinal_applyInputUpdate (rid : Nat) (v : String) (vr : Option String)
    (t : Nat) (r : InputRow) :
    (applyInputUpdate rid v vr t r).is_final_answer = r.is_final_answer := by
  unfold applyInputUpdate
  split <;> rfl

/-- Filtering for a final-answer pair commutes with the update map. -/
theorem filter_finalMatch_map_update (aid : Nat) (nm : String) (rid : Nat)
    (v : String) (vr : Option String) (t : Nat) (l : List InputRow) :
    (l.map (applyInputUpdate rid v vr t)).filter (finalMatch aid nm)
      = (l.filter (finalMatch aid nm)).map (applyInputUpdate rid v vr t) := by
  induction l with
  | nil => rfl
  | cons r l ih =>
      simp only [List.map_cons, List.filter_cons, finalMatch_applyInputUpdate]
      cases h : finalMatch aid nm r <;> simp [h, ih]

/-- The state after a `trackInput` final-answer call that found no existing
record: the fresh final-answer row is appended and the three requests
(attempt select, input select, insert) are logged. -/
def consInsertSucc (s : TrackerState) (sess : SessionRow) (attempt : AttemptRow)
    (nm v ty : String) (vr : Option String) : TrackerState :=
  { s with
      store := { s.store with
        nextId := s.store.nextId + 1,
        input_tracking := s.store.input_tracking
          ++ [newInputRow s sess attempt nm v ty vr] },
      log := s.log ++ [StoreOp.selectAttempts attempt.id,
        StoreOp.selectInputs attempt.id nm, StoreOp.insertInputs attempt.id nm] }

/-- The state after a `trackInput` final-answer call that found an existing
record: rows with its id are updated in place and the three requests
(attempt select, input select, update) are logged. -/
def consUpdateSucc (s : TrackerState) (attempt : AttemptRow) (exid : Nat)
    (nm v : String) (vr : Option String) (t : Nat) : TrackerState :=
  { s with
      store := { s.store with
        input_tracking := s.store.input_tracking.map (applyInputUpdate exid v vr t) },
      log := s.log ++ [StoreOp.selectAttempts attempt.id,
        StoreOp.selectInputs attempt.id nm, StoreOp.updateInputs exid] }

/-- A final-answer `trackInput` with no existing record for the pair, under
its preconditions with a normally behaving store: it inserts one fresh
final-answer row holding the given value and returns it. -/
theorem trackInput_final_insert (qpfx nm v ty : String) (vr : Option String)
    (env : Env) (s : TrackerState) (sess : SessionRow)
    (attempt arow : AttemptRow)
    (hconf : s.supabaseConfigured = true)
    (hsess : s.currentSession = some sess)
    (hatt : s.currentAttempts qpfx = some attempt)
    (hfaults : s.faults = [])
    (hver : s.store.question_attempts.filter (fun r => r.id == attempt.id) = [arow])
    (hnone : s.store.input_tracking.filter (finalMatch attempt.id nm) = []) :
    trackInput qpfx nm v ty true vr env s =
      (Except.ok (some (newInputRow s sess attempt nm v ty vr)),
       consInsertSucc s sess attempt nm v ty vr) := by
  have hrun1 : selectAttemptRun attempt.id s.store = (⟨some arow, none⟩, s.store) := by
    unfold selectAttemptRun
    rw [hver]
  have hrun2 : selectFinalInputRun attempt.id nm s.store = (⟨none, none⟩, s.store) := by
    unfold selectFinalInputRun
    rw [hnone]
  unfold trackInput
  rw [hatt]
  simp only [hconf, hsess, Option.isNone_some, Bool.not_true, Bool.or_false,
    Bool.false_eq_true, if_false, trackInputBody, trackConsolidatedInput,
    dbCall_nofault, hfaults, hrun1, hrun2, insertInputRun,
    consInsertSucc, newInputRow, catchJs]
  simp [List.append_assoc]

/-- The update run always commits the mapped table, whatever `.single()`
resolves to. -/
theorem updateInputRun_snd (rid : Nat) (v : String) (vr : Option String)
    (t : Nat) (st : Store) :
    (updateInputRun rid v vr t st).2 =
      { st with input_tracking := st.input_tracking.map (applyInputUpdate rid v vr t) } := by
  simp only [updateInputRun]
  split <;> rfl

/-- A final-answer `trackInput` that finds the one existing record for the
pair, under its preconditions with a normally behaving store: the resulting
state updates that record in place and logs select, select, update — no
insert happens. -/
theorem trackInput_final_update_state (qpfx nm v ty : String)
    (vr : Option String) (env : Env) (s : TrackerState) (sess : SessionRow)
    (attempt arow : AttemptRow) (ex : InputRow)
    (hconf : s.supabaseConfigured = true)
    (hsess : s.currentSession = some sess)
    (hatt : s.currentAttempts qpfx = some attempt)
    (hfaults : s.faults = [])
    (hver : s.store.question_attempts.filter (fun r => r.id == attempt.id) = [arow])
    (hone : s.store.input_tracking.filter (finalMatch attempt.id nm) = [ex]) :
    (trackInput qpfx nm v ty true vr env s).2 =
      consUpdateSucc s attempt ex.id nm v vr env.now := by
  have hrun1 : selectAttemptRun attempt.id s.store = (⟨some arow, none⟩, s.store) := by
    unfold selectAttemptRun
    rw [hver]
  have hrun2 : selectFinalInputRun attempt.id nm s.store = (⟨some ex, none⟩, s.store) := by
    unfold selectFinalInputRun
    rw [hone]
  unfold trackInput
  rw [hatt]
  simp only [hconf, hsess, Option.isNone_some, Bool.not_true, Bool.or_false,
    Bool.false_eq_true, if_false, trackInputBody, trackConsolidatedInput,
    dbCall_nofault, hfaults, hrun1, hrun2, catchJs]
  cases hre : ((updateInputRun ex.id v vr env.now s.store).1).error with
  | some e =>
      simp only [hre, updateInputRun_snd, consUpdateSucc]
      simp [List.append_assoc]
      exact ⟨hconf, hfaults, hsess.symm⟩
  | none =>
      simp only [hre, updateInputRun_snd, consUpdateSucc]
      simp [List.append_assoc]
      exact ⟨hconf, hfaults, hsess.symm⟩

/-- C1: starting from any state satisfying the tracker invariant (at most
one final-answer record for the (attempt, input name) pair) whose
preconditions hold and whose store behaves normally, two sequential
final-answer `trackInput` calls for that pair leave the store with exactly
one final-answer record for the pair, and it holds the value of the second
call. -/
theorem trackInput_final_twice_one_record (qpfx nm v1 ty1 v2 ty2 : String)
    (vr1 vr2 : Option String) (env1 env2 : Env) (s : TrackerState)
    (sess : SessionRow) (attempt arow : AttemptRow)
    (hconf : s.supabaseConfigured = true)
    (hsess : s.currentSession = some sess)
    (hatt : s.currentAttempts qpfx = some attempt)
    (hfaults : s.faults = [])
    (hver : s.store.question_attempts.filter (fun r => r.id == attempt.id) = [arow])
    (hinv : (s.store.input_tracking.filter (finalMatch attempt.id nm)).length ≤ 1) :
    ∃ row : InputRow,
      ((trackInput qpfx nm v2 ty2 true vr2 env2
          (trackInput qpfx nm v1 ty1 true vr1 env1 s).2).2.store.input_tracking.filter
            (finalMatch attempt.id nm)) = [row] ∧
      row.input_value = v2 ∧ row.is_final_answer = true := by
  rcases h0 : s.store.input_tracking.filter (finalMatch attempt.id nm) with _ | ⟨ex, rest⟩
  · have hs1 : (trackInput qpfx nm v1 ty1 true vr1 env1 s).2
        = consInsertSucc s sess attempt nm v1 ty1 vr1 := by
      rw [trackInput_final_insert qpfx nm v1 ty1 vr1 env1 s sess attempt arow
        hconf hsess hatt hfaults hver h0]
    rw [hs1]
    have h1 : (consInsertSucc s sess attempt nm v1 ty1 vr1).store.input_tracking.filter
        (finalMatch attempt.id nm) = [newInputRow s sess attempt nm v1 ty1 vr1] := by
      simp [consInsertSucc, List.filter_append, h0, finalMatch, newInputRow]
    have hstep2 := trackInput_final_update_state qpfx nm v2 ty2 vr2 env2
      (consInsertSucc s sess attempt nm v1 ty1 vr1) sess attempt arow
      (newInputRow s sess attempt nm v1 ty1 vr1) hconf hsess hatt hfaults hver h1
    rw [hstep2]
    refine ⟨applyInputUpdate (newInputRow s sess attempt nm v1 ty1 vr1).id v2 vr2 env2.now
      (newInputRow s sess attempt nm v1 ty1 vr1), ?_, ?_, ?_⟩
    · simp only [consUpdateSucc]
      rw [filter_finalMatch_map_update, h1]
      rfl
    · simp [applyInputUpdate]
    · simp [isFinal_applyInputUpdate, newInputRow]
  · have hrest : rest = [] := by
      rw [h0] at hinv
      simp [List.length_cons] at hinv
      exact hinv
    subst hrest
    have hfm_ex : finalMatch attempt.id nm ex = true := by
      have hmem : ex ∈ s.store.input_tracking.filter (finalMatch attempt.id nm) := by
        rw [h0]
        simp
      exact List.of_mem_filter hmem
    have hs1 : (trackInput qpfx nm v1 ty1 true vr1 env1 s).2
        = consUpdateSucc s attempt ex.id nm v1 vr1 env1.now :=
      trackInput_final_update_state qpfx nm v1 ty1 vr1 env1 s sess attempt arow ex
        hconf hsess hatt hfaults hver h0
    rw [hs1]
    have h1 : (consUpdateSucc s attempt ex.id nm v1 vr1 env1.now).store.input_tracking.filter
        (finalMatch attempt.id nm) = [applyInputUpdate ex.id v1 vr1 env1.now ex] := by
      simp only [consUpdateSucc]
      rw [filter_finalMatch_map_update, h0]
      rfl
    have hstep2 := trackInput_final_update_state qpfx nm v2 ty2 vr2 env2
      (consUpdateSucc s attempt ex.id nm v1 vr1 env1.now) sess attempt arow
      (applyInputUpdate ex.id v1 vr1 env1.now ex) hconf hsess hatt hfaults hver h1
    rw [hstep2]
    refine ⟨applyInputUpdate (applyInputUpdate ex.id v1 vr1 env1.now ex).id v2 vr2 env2.now
      (applyInputUpdate ex.id v1 vr1 env1.now ex), ?_, ?_, ?_⟩
    · simp only [consUpdateSucc]
      rw [filter_finalMatch_map_update, filter_finalMatch_map_update, h0]
      rfl
    · simp [applyInputUpdate]
    · rw [isFinal_applyInputUpdate, isFinal_applyInputUpdate]
      unfold finalMatch at hfm_ex
      simp only [Bool.and_eq_true] at hfm_ex
      exact hfm_ex.2

/-- Witness for C1 at a concrete state: two sequential final-answer calls
for `(attempt 2, ans)` leave exactly one final-answer row for the pair,
holding the second value. -/
theorem trackInput_final_twice_one_record_witness :
    ∃ row : InputRow,
      ((trackInput "q1_" "ans" "4" "text" true none env0
          (trackInput "q1_" "ans" "3" "text" true none env0 state0).2).2.store.input_tracking.filter
            (finalMatch attempt0.id "ans")) = [row] ∧
      row.input_value = "4" ∧ row.is_final_answer = true :=
  trackInput_final_twice_one_record "q1_" "ans" "3" "text" "4" "text" none none
    env0 env0 state0 sess0 attempt0 attempt0 rfl rfl rfl rfl rfl (by decide)
